import Mathlib

/-
Verification of the sd_telegram_sender extension (scripts/TG_sender.py).

The pipeline forwards freshly saved images to Telegram chats.  We embed the
pure decision logic of the script: filename key extraction (extract_key),
routing-table parsing (the dict comprehension in on_image_saved), the
NSFW-classifier gate (predict_nsfw and the branch structure of
on_image_saved), the resize no-op test (resize_image), the quality-stepping
compression loop (compress_image_for_telegram), and the retrying delivery
loop with temp-file cleanup (send_to_telegram, delete_temp_file).

Strings are modelled as List Char.  Configuration lookups
(shared.opts.data.get) are passed in explicitly.  I/O effects (HTTP post,
file writes) are abstracted into explicit outcome parameters: an upload
attempt is an AttemptOut value, and the JPEG encoder is a function from
quality to resulting byte size.  Classifier confidence scores are modelled
as rationals.
-/

namespace TGSender

/-- Python whitespace class for str methods and the regex class on the
ASCII range (the inputs we reason about are ASCII). -/
def isPySpace (c : Char) : Bool :=
  c == ' ' || c == '\t' || c == '\n' || c == '\r' || c == '\x0b' || c == '\x0c'

/-- Python str.lower on the ASCII range. -/
def pyLower (l : List Char) : List Char :=
  l.map Char.toLower

/-- Python str.strip: remove leading and trailing whitespace. -/
def pyStrip (l : List Char) : List Char :=
  ((l.dropWhile isPySpace).reverse.dropWhile isPySpace).reverse

/-- Python substring test: needle occurs contiguously in hay
(the "in" operator on strings). -/
def hasInfix (needle : List Char) (hay : List Char) : Bool :=
  match hay with
  | [] => needle.isEmpty
  | c :: t => needle.isPrefixOf (c :: t) || hasInfix needle t

/-- Python str.split on a one-character separator (no maxsplit):
"".split(sep) is [""], and empty fields are kept. -/
def splitOnChar (sep : Char) : List Char → List (List Char)
  | [] => [[]]
  | c :: rest =>
    match splitOnChar sep rest with
    | [] => [[c]]
    | h :: t => if c == sep then [] :: h :: t else (c :: h) :: t

/-- Python entry.split(":", 1) restricted to its two components:
the text before the first colon and the text after it. -/
def splitFirstColon : List Char → List Char × List Char
  | [] => ([], [])
  | c :: rest =>
    if c == ':' then ([], rest)
    else
      match splitFirstColon rest with
      | (a, b) => (c :: a, b)

/-- One position of the regex search re.search(r"-lora\s+(\S+)", f, IGNORECASE):
at the head of l, match the literal "-lora" case-insensitively, then at
least one whitespace character, then a maximal nonempty run of
non-whitespace characters (the captured group). -/
def loraTokenAt (l : List Char) : Option (List Char) :=
  if (l.take 5).map Char.toLower = "-lora".data then
    if ((l.drop 5).takeWhile isPySpace).isEmpty then none
    else
      match ((l.drop 5).dropWhile isPySpace).takeWhile (fun c => !isPySpace c) with
      | [] => none
      | c :: t => some (c :: t)
  else none

/-- Leftmost match of re.search: try each start position left to right. -/
def findLoraToken : List Char → Option (List Char)
  | [] => none
  | c :: t =>
    match loraTokenAt (c :: t) with
    | some tok => some tok
    | none => findLoraToken t

/-- extract_key from TG_sender.py: first token after the "-lora" marker in
the filename, returned as "lora " ++ token (token stripped); empty string
if the marker is absent. -/
def extract_key (filename : List Char) : List Char :=
  match findLoraToken filename with
  | some tok => "lora ".data ++ pyStrip tok
  | none => []

/-- One entry of the mapping dict comprehension in on_image_saved:
split at the first colon, key stripped then lowercased, value stripped. -/
def entryPair (e : List Char) : List Char × List Char :=
  (pyLower (pyStrip (splitFirstColon e).1), pyStrip (splitFirstColon e).2)

/-- The routing table built in on_image_saved:
mapping_str.split(";"), keep entries containing ":", normalize each.
Represented as the association list in insertion order; lookups use
pyDictGet which gives the Python dict semantics (later duplicate wins). -/
def parseMapping (s : List Char) : List (List Char × List Char) :=
  ((splitOnChar ';' s).filter (fun e => e.contains ':')).map entryPair

/-- Python dict .get on the association list built by parseMapping:
the value of the last entry with the given key, if any. -/
def pyDictGet (m : List (List Char × List Char)) (k : List Char) : Option (List Char) :=
  (m.reverse.find? (fun p => p.1 == k)).map (fun p => p.2)

/-- The filename-based routing block of on_image_saved: key :=
extract_key(filename).lower(), mapping := parseMapping of the configured
string, chat_id := mapping.get(key); "if not chat_id" treats both a
missing key and an empty-string chat id as a miss (return, no send). -/
def tagRoute (mappingStr filename : List Char) : Option (List Char) :=
  match pyDictGet (parseMapping mappingStr) (pyLower (extract_key filename)) with
  | none => none
  | some v => if v = [] then none else some v

/-- Python max over a list of scores; None stands for max() on an empty
sequence, which raises ValueError (caught by predict_nsfw). -/
def listMax (l : List ℚ) : Option ℚ :=
  l.foldl (fun acc x =>
    match acc with
    | none => some x
    | some m => some (max m x)) none

/-- predict_nsfw from TG_sender.py.  loaded is whether nsfw_pipeline is
non-None; run is the classifier call, either an exception (error) or a
list of (label, score) dicts.  Returns the (Label, Score) record stored
for the image: SFW with score 0 when the model is missing, when the call
raises, or when the max() over scores raises on an empty selection. -/
def predictNsfw (loaded : Bool) (run : Except Unit (List (String × ℚ))) : String × ℚ :=
  if loaded = false then ("SFW", 0)
  else
    match run with
    | Except.error _ => ("SFW", 0)
    | Except.ok result =>
      match listMax ((result.filter (fun d => d.1 == (if result.any (fun d => d.1 == "NSFW") then "NSFW" else "SFW"))).map (fun d => d.2)) with
      | none => ("SFW", 0)
      | some s => ((if result.any (fun d => d.1 == "NSFW") then "NSFW" else "SFW"), s)

/-- The configuration keys of TG_sender.py consulted by the routing part
of on_image_saved. -/
structure Config where
  enable_nsfw_detection : Bool
  nsfw_threshold : ℚ
  nsfw_channel_id : List Char
  telegram_channel_mapping : List Char

/-- The chat-id resolution of on_image_saved (lines 203-248): when NSFW
detection is enabled and the model is loaded, classify; a NSFW label at or
above the threshold routes to the configured NSFW channel when that is
nonempty, and falls back to filename routing when it is empty; in every
other case (detection disabled, model missing, SFW label, low score)
ordinary filename routing applies.  none means the image is not sent. -/
def onImageSavedDest (cfg : Config) (loaded : Bool)
    (run : Except Unit (List (String × ℚ))) (filename : List Char) :
    Option (List Char) :=
  if cfg.enable_nsfw_detection && loaded then
    if (predictNsfw loaded run).1 = "NSFW" ∧ cfg.nsfw_threshold ≤ (predictNsfw loaded run).2 then
      if cfg.nsfw_channel_id ≠ [] then some cfg.nsfw_channel_id
      else tagRoute cfg.telegram_channel_mapping filename
    else tagRoute cfg.telegram_channel_mapping filename
  else tagRoute cfg.telegram_channel_mapping filename

/-- Index of the last occurrence of a character, as in Python str.rfind
(none when absent). -/
def lastIdx (c : Char) (l : List Char) : Option Nat :=
  match (l.reverse.findIdx? (fun x => x == c)) with
  | none => none
  | some k => some (l.length - 1 - k)

/-- os.path.splitext(p)[0] (posix rules): cut at the last dot that lies in
the basename and has at least one non-dot character of the basename before
it; otherwise the whole path. -/
def splitextStem (p : List Char) : List Char :=
  match lastIdx '.' p with
  | none => p
  | some d =>
    match lastIdx '/' p with
    | none =>
      if (List.range' 0 d).any (fun i => !(p.getD i ' ' == '.')) then p.take d else p
    | some s =>
      if s < d ∧ (List.range' (s + 1) (d - (s + 1))).any (fun i => !(p.getD i ' ' == '.')) then
        p.take d
      else p

/-- resize_image from TG_sender.py, restricted to the data the claims are
about: the image dimensions, the two configured bounds and the returned
path.  A landscape image (width >= height) within the landscape max width,
or a portrait/square image whose longer side is within the portrait max,
is returned as the original path; otherwise the scaled image is written to
splitext(path)[0] ++ "_resized.jpg" and that path is returned.  The pixel
arithmetic of the scaled copy is omitted: no claim concerns it. -/
def resize_image (wd ht : Nat) (landMax portMax : Nat) (p : List Char) : List Char :=
  if ht ≤ wd then
    if wd ≤ landMax then p
    else splitextStem p ++ "_resized.jpg".data
  else
    if max wd ht ≤ portMax then p
    else splitextStem p ++ "_resized.jpg".data

/-- The while loop of compress_image_for_telegram.  sizeAt q is the byte
size of the JPEG encoding of the image at quality q (the file the loop
writes to the temp path).  The loop runs while quality >= 30: it encodes
at the current quality, stops when the size is within target, and
otherwise lowers quality by 10.  The returned number is the quality of the
encoding left at the temp path when the function returns. -/
def compressGo (sizeAt : Nat → Nat) (target : Nat) (q : Nat) : Nat :=
  if sizeAt q ≤ target then q
  else if h : 30 ≤ q - 10 then compressGo sizeAt target (q - 10)
  else q
termination_by q
decreasing_by omega

/-- compress_image_for_telegram from TG_sender.py: the loop starts at
quality 85. -/
def compress_image_for_telegram (sizeAt : Nat → Nat) (target : Nat) : Nat :=
  compressGo sizeAt target 85

/-- Outcome of one upload attempt inside send_to_telegram: the HTTP post
succeeded (response.ok), the server answered with an error status, or the
attempt raised an exception (caught by the except clause). -/
inductive AttemptOut
  | ok
  | httpErr
  | exc
deriving DecidableEq

/-- delete_temp_file from TG_sender.py, as the decision whether the file
is removed: only an existing file whose basename contains "_resized" or
"_compressed" is deleted; deletion errors are swallowed. -/
def delete_temp_file (fileExists : Bool) (basename : List Char) : Bool :=
  if fileExists then
    hasInfix "_resized".data basename || hasInfix "_compressed".data basename
  else false

/-- Result of a send_to_telegram call: whether a send succeeded, how many
attempts ran, whether the file at the path was deleted afterwards, and the
sleeps performed between attempts. -/
structure SendResult where
  success : Bool
  attemptsMade : Nat
  deleted : Bool
  delays : List Nat
deriving DecidableEq

/-- The retry loop of send_to_telegram: for attempt in range(max_retries):
try one upload; on response.ok delete the temp file (the file exists, it
was just uploaded) and return; on an error status or a caught exception
sleep the configured delay unless this was the last attempt, then retry.
After the loop the failure is logged and nothing is deleted.  att i is the
outcome of attempt i, i counted from 0; ds accumulates sleeps in reverse. -/
def sendGo (att : Nat → AttemptOut) (maxRetries delay : Nat) (basename : List Char)
    (i : Nat) (ds : List Nat) : SendResult :=
  if h : i < maxRetries then
    if att i = AttemptOut.ok then
      ⟨true, i + 1, delete_temp_file true basename, ds.reverse⟩
    else
      sendGo att maxRetries delay basename (i + 1)
        (if i + 1 < maxRetries then delay :: ds else ds)
  else ⟨false, i, false, ds.reverse⟩
termination_by maxRetries - i
decreasing_by omega

/-- send_to_telegram from TG_sender.py (the retry loop; the leading
kill-switch, token and size checks are upstream of the delivery loop the
claims quantify over). -/
def send_to_telegram (att : Nat → AttemptOut) (maxRetries delay : Nat)
    (basename : List Char) : SendResult :=
  sendGo att maxRetries delay basename 0 []

/-- Modelled from the spec: the metadata-based Router tag-match loop of
section 4.2 is not present in src/ (the script there routes by exact
dictionary lookup of a single filename-derived key).  Per the spec: a key
matches a tag when it is prefixed "lora " and its suffix (the part after
the prefix) is a substring of the lowercased tag. -/
def matchKey (tag key : List Char) : Bool :=
  "lora ".data.isPrefixOf key && hasInfix (key.drop 5) (pyLower tag)

/-- Modelled from the spec: the tag-match policy of section 4.2 — for each
extracted LoRA tag in order (outer loop), for each routing-table key in
table order (inner loop), the first matching key wins and its value is the
destination. -/
def routeTags (tags : List (List Char)) (table : List (List Char × List Char)) :
    Option (List Char) :=
  tags.findSome? (fun tag => (table.find? (fun p => matchKey tag p.1)).map (fun p => p.2))

/-- Modelled from the spec: the word "nsfw" appears in the text,
case-insensitively (section 4.2 prompt sniffing; absent from src/). -/
def hasNsfwWord (s : List Char) : Bool :=
  hasInfix "nsfw".data (pyLower s)

/-- Modelled from the spec: the prompt-text NSFW override of section 4.2,
absent from src/ — with a non-empty NSFW destination configured, "nsfw" in
the positive prompt and not in the negative prompt overrides the
destination unconditionally; otherwise ordinary tag routing applies. -/
def routeWithNsfwOverride (posP negP nsfwChannel : List Char)
    (tags : List (List Char)) (table : List (List Char × List Char)) :
    Option (List Char) :=
  if (!nsfwChannel.isEmpty) && hasNsfwWord posP && !hasNsfwWord negP then some nsfwChannel
  else routeTags tags table

/-- Helper: find? returns the head of the first segment whose element
satisfies the predicate, when everything before it fails. -/
theorem find?_append_first {α : Type} (p : α → Bool) (pre : List α) (a : α) (post : List α)
    (hpre : ∀ x ∈ pre, p x = false) (ha : p a = true) :
    (pre ++ a :: post).find? p = some a := by
  induction pre with
  | nil => simp [List.find?_cons, ha]
  | cons b t ih =>
    have hb : p b = false := hpre b (by simp)
    simp only [List.cons_append, List.find?_cons, hb]
    exact ih (fun x hx => hpre x (by simp [hx]))

/-- C3: the end-to-end filename scenario of the spec.  With filename
"0001-modelX-lora SomeLora.png" and table "lora somelora:1001", the regex
token swallows the file extension, so the lowercased key is
"lora somelora.png", the exact dictionary lookup of "lora somelora"
misses, and the pipeline resolves no destination instead of "1001". -/
theorem c3_filename_scenario_eval :
    extract_key "0001-modelX-lora SomeLora.png".data = "lora SomeLora.png".data ∧
    pyLower (extract_key "0001-modelX-lora SomeLora.png".data) = "lora somelora.png".data ∧
    parseMapping "lora somelora:1001".data = [("lora somelora".data, "1001".data)] ∧
    onImageSavedDest ⟨false, 0, [], "lora somelora:1001".data⟩ false (Except.error ())
      "0001-modelX-lora SomeLora.png".data = none := by
  decide

/-- C4 (counterexample): with every encoding 2 bytes and target 1 byte
(a target smaller than the quality-30 size), the loop returns the
quality-35 encoding, not the quality-30 encoding the claim names. -/
theorem c4_quality30_counterexample :
    compress_image_for_telegram (fun _ => 2) 1 = 35 ∧
    (1 : Nat) < 2 ∧ (35 : Nat) ≠ 30 := by
  refine ⟨?_, by norm_num, by norm_num⟩
  simp [compress_image_for_telegram, compressGo]

/-- C4 (amended): when the target is below every encoding size at
qualities 30 and above, the compression loop terminates and the returned
artifact is the quality-35 encoding — the lowest quality the loop ever
writes, since quality steps 85, 75, 65, 55, 45, 35 and then drops below
30 without ever encoding at 30 itself. -/
theorem c4_compress_exhaust (sizeAt : Nat → Nat) (target : Nat)
    (h : ∀ q, 30 ≤ q → target < sizeAt q) :
    compress_image_for_telegram sizeAt target = 35 := by
  have h85 : ¬ sizeAt 85 ≤ target := by have := h 85 (by omega); omega
  have h75 : ¬ sizeAt 75 ≤ target := by have := h 75 (by omega); omega
  have h65 : ¬ sizeAt 65 ≤ target := by have := h 65 (by omega); omega
  have h55 : ¬ sizeAt 55 ≤ target := by have := h 55 (by omega); omega
  have h45 : ¬ sizeAt 45 ≤ target := by have := h 45 (by omega); omega
  have h35 : ¬ sizeAt 35 ≤ target := by have := h 35 (by omega); omega
  simp [compress_image_for_telegram, compressGo, h85, h75, h65, h55, h45, h35]

/-- C4 (witness): the hypothesis of c4_compress_exhaust holds at the
constant-size-2 encoder with target 1, and the loop returns quality 35. -/
theorem c4_compress_exhaust_witness :
    (∀ q, 30 ≤ q → 1 < (fun _ : Nat => 2) q) ∧
    compress_image_for_telegram (fun _ => 2) 1 = 35 :=
  ⟨fun _ _ => by norm_num, c4_compress_exhaust (fun _ => 2) 1 (fun _ _ => by norm_num)⟩

/-- C8: an image already within the configured bounds — a landscape image
(width at least height) whose width is within the landscape max, or a
portrait image whose longer side is within the portrait/square max — is
returned as the original path unchanged, so resize is a no-op on
compliant images. -/
theorem c8_resize_noop (wd ht landMax portMax : Nat) (p : List Char) :
    (ht ≤ wd → wd ≤ landMax → resize_image wd ht landMax portMax p = p) ∧
    (wd < ht → max wd ht ≤ portMax → resize_image wd ht landMax portMax p = p) := by
  constructor
  · intro h1 h2
    rw [resize_image, if_pos h1, if_pos h2]
  · intro h1 h2
    rw [resize_image, if_neg (by omega), if_pos h2]

/-- C8 (witness): a 4000x2000 landscape image within the default 5120
landscape bound keeps its path. -/
theorem c8_resize_noop_witness :
    resize_image 4000 2000 5120 2560 "img.png".data = "img.png".data :=
  (c8_resize_noop 4000 2000 5120 2560 "img.png".data).1 (by norm_num) (by norm_num)

/-- C9: parsing the routing-table string splits on ";", keeps exactly the
entries containing ":", and normalizes every kept entry by trimming and
lowercasing the key and trimming the value; malformed entries contribute
nothing, and the parse is a total function (the embedded code raises no
exception). -/
theorem c9_mapping_parse (s : List Char) :
    ((∀ e ∈ splitOnChar ';' s, e.contains ':' = false) → parseMapping s = []) ∧
    (∀ pr ∈ parseMapping s, ∃ e, e ∈ splitOnChar ';' s ∧ e.contains ':' = true ∧
      pr.1 = pyLower (pyStrip (splitFirstColon e).1) ∧
      pr.2 = pyStrip (splitFirstColon e).2) ∧
    (parseMapping s).length =
      ((splitOnChar ';' s).filter (fun e => e.contains ':')).length := by
  refine ⟨?_, ?_, ?_⟩
  · intro h
    unfold parseMapping
    have hf : (splitOnChar ';' s).filter (fun e => e.contains ':') = [] :=
      List.filter_eq_nil_iff.mpr (fun a ha => by simpa using h a ha)
    rw [hf]
    rfl
  · intro pr hpr
    unfold parseMapping at hpr
    obtain ⟨e, he, hfe⟩ := List.mem_map.mp hpr
    obtain ⟨heL, hec⟩ := List.mem_filter.mp he
    exact ⟨e, heL, hec, by rw [← hfe]; rfl, by rw [← hfe]; rfl⟩
  · unfold parseMapping
    rw [List.length_map]

/-- C9 (witness): a table text whose entries all lack ":" parses to the
empty table. -/
theorem c9_mapping_parse_witness : parseMapping "bad;worse".data = [] :=
  (c9_mapping_parse "bad;worse".data).1 (by decide)

/-- C10: with the classification model unavailable, predict_nsfw answers
SFW with score 0 without raising; a classification call that raises is
also answered SFW with score 0; and with the model unavailable the
dispatcher's destination is always the ordinary filename-based route, so
the NSFW override can never trigger without a loaded model. -/
theorem c10_model_unavailable :
    (∀ run, predictNsfw false run = ("SFW", 0)) ∧
    (predictNsfw true (Except.error ()) = ("SFW", 0)) ∧
    (∀ cfg : Config, ∀ run fname, onImageSavedDest cfg false run fname =
      tagRoute cfg.telegram_channel_mapping fname) := by
  refine ⟨fun run => rfl, rfl, fun cfg run fname => ?_⟩
  simp [onImageSavedDest]

/-- C1: first-match semantics of the spec's tag-match policy.  If tag is
the first extracted LoRA tag matched by any table key (everything before
it in tag order matches no key), and (k, v) is the first key in table
order matching that tag, then the Router resolves to v. -/
theorem c1_route_first_match (pre post : List (List Char)) (tag : List Char)
    (tpre tpost : List (List Char × List Char)) (k v : List Char)
    (h1 : ∀ t ∈ pre, ∀ q ∈ tpre ++ (k, v) :: tpost, matchKey t q.1 = false)
    (h2 : ∀ q ∈ tpre, matchKey tag q.1 = false)
    (h3 : matchKey tag k = true) :
    routeTags (pre ++ tag :: post) (tpre ++ (k, v) :: tpost) = some v := by
  induction pre with
  | nil =>
    have hfind : (tpre ++ (k, v) :: tpost).find? (fun p => matchKey tag p.1) = some (k, v) :=
      find?_append_first _ tpre (k, v) tpost (fun x hx => h2 x hx) h3
    simp only [List.nil_append, routeTags, List.findSome?_cons, hfind, Option.map_some']
  | cons t rest ih =>
    have hnone : (tpre ++ (k, v) :: tpost).find? (fun p => matchKey t p.1) = none :=
      List.find?_eq_none.mpr (fun x hx => by simp [h1 t (by simp) x hx])
    have ihh := ih (fun t' ht' q hq => h1 t' (by simp [ht']) q hq)
    simp only [routeTags] at ihh ⊢
    rw [List.cons_append, List.findSome?_cons, hnone]
    simpa using ihh

/-- C1 (witness): a single tag "mytag" against the single key "lora tag"
(suffix "tag" occurs in "mytag") routes to that key's value. -/
theorem c1_route_first_match_witness :
    routeTags ["mytag".data] [("lora tag".data, "42".data)] = some "42".data :=
  c1_route_first_match [] [] "mytag".data [] [] "lora tag".data "42".data
    (by simp) (by simp) (by decide)

/-- C2: the prompt-text NSFW override.  With a non-empty NSFW destination,
"nsfw" in the positive prompt and not in the negative prompt, the decision
is the NSFW destination regardless of the tag table; and whenever "nsfw"
occurs in the negative prompt (in particular when it occurs in both
segments) the override does not trigger and ordinary tag routing
applies. -/
theorem c2_prompt_nsfw_override (posP negP ch : List Char) (tags : List (List Char))
    (table : List (List Char × List Char)) :
    (ch ≠ [] → hasNsfwWord posP = true → hasNsfwWord negP = false →
      routeWithNsfwOverride posP negP ch tags table = some ch) ∧
    (hasNsfwWord negP = true →
      routeWithNsfwOverride posP negP ch tags table = routeTags tags table) := by
  constructor
  · intro h1 h2 h3
    have hch : ch.isEmpty = false := by cases ch <;> simp_all
    simp [routeWithNsfwOverride, hch, h2, h3]
  · intro h
    simp [routeWithNsfwOverride, h]

/-- C2 (witness): positive prompt "NSFW art", negative prompt "blurry",
NSFW channel "999": the decision is the NSFW channel. -/
theorem c2_prompt_nsfw_override_witness :
    routeWithNsfwOverride "NSFW art".data "blurry".data "999".data [] [] =
      some "999".data :=
  (c2_prompt_nsfw_override "NSFW art".data "blurry".data "999".data [] []).1
    (by decide) (by decide) (by decide)

/-- C7: the classifier-based override in on_image_saved.  With detection
enabled and the model loaded, a classification labelled NSFW whose score
reaches the threshold routes to the configured NSFW channel when that is
non-empty, and re-applies ordinary filename routing when the NSFW channel
is unset. -/
theorem c7_classifier_override (cfg : Config) (run : Except Unit (List (String × ℚ)))
    (fname : List Char)
    (hE : cfg.enable_nsfw_detection = true)
    (hL : (predictNsfw true run).1 = "NSFW")
    (hS : cfg.nsfw_threshold ≤ (predictNsfw true run).2) :
    (cfg.nsfw_channel_id ≠ [] →
      onImageSavedDest cfg true run fname = some cfg.nsfw_channel_id) ∧
    (cfg.nsfw_channel_id = [] →
      onImageSavedDest cfg true run fname = tagRoute cfg.telegram_channel_mapping fname) := by
  constructor
  · intro hch
    simp [onImageSavedDest, hE, hL, hS, hch]
  · intro hch
    simp [onImageSavedDest, hE, hL, hS, hch]

/-- C7 (witness): a concrete NSFW classification with score 1 against
threshold 0 and NSFW channel "999" routes to "999". -/
theorem c7_classifier_override_witness :
    onImageSavedDest ⟨true, 0, "999".data, []⟩ true
      (Except.ok [("NSFW", (1 : ℚ))]) [] = some "999".data :=
  (c7_classifier_override ⟨true, 0, "999".data, []⟩
      (Except.ok [("NSFW", (1 : ℚ))]) [] rfl (by decide) (by decide)).1 (by decide)

/-- Helper invariant for the retry loop, by induction on the remaining
fuel maxRetries - i: attempts never exceed the bound, a failure outcome
means every attempt from i on failed, the deletion flag equals success
combined with the temp-marker test, and all recorded sleeps use the
configured delay. -/
theorem sendGo_inv (att : Nat → AttemptOut) (n d : Nat) (bn : List Char) :
    ∀ fuel i ds, fuel = n - i → i ≤ n →
      (sendGo att n d bn i ds).attemptsMade ≤ n ∧
      ((sendGo att n d bn i ds).success = false →
        ∀ j, i ≤ j → j < n → ¬ att j = AttemptOut.ok) ∧
      ((sendGo att n d bn i ds).deleted =
        ((sendGo att n d bn i ds).success && delete_temp_file true bn)) ∧
      ((∀ x ∈ ds, x = d) → ∀ x ∈ (sendGo att n d bn i ds).delays, x = d) := by
  intro fuel
  induction fuel with
  | zero =>
    intro i ds hf hi
    have hNi : ¬ i < n := by omega
    rw [sendGo, dif_neg hNi]
    refine ⟨by dsimp only; omega, ?_, by simp, ?_⟩
    · intro _ j hij hjN
      omega
    · intro hds x hx
      exact hds x (List.mem_reverse.mp hx)
  | succ fuel ih =>
    intro i ds hf hi
    by_cases hiN : i < n
    · rw [sendGo, dif_pos hiN]
      by_cases hok : att i = AttemptOut.ok
      · rw [if_pos hok]
        refine ⟨by dsimp only; omega, ?_, by simp [delete_temp_file], ?_⟩
        · intro hs
          dsimp only at hs
          cases hs
        · intro hds x hx
          exact hds x (List.mem_reverse.mp hx)
      · rw [if_neg hok]
        obtain ⟨ha, hb, hc, hd⟩ :=
          ih (i + 1) (if i + 1 < n then d :: ds else ds) (by omega) (by omega)
        refine ⟨ha, ?_, hc, ?_⟩
        · intro hs j hij hjN
          rcases Nat.eq_or_lt_of_le hij with heq | hlt
          · rw [← heq]
            exact hok
          · exact hb hs j hlt hjN
        · intro hds
          apply hd
          intro x hx
          by_cases hcond : i + 1 < n
          · rw [if_pos hcond] at hx
            rcases List.mem_cons.mp hx with h | h
            · exact h
            · exact hds x h
          · rw [if_neg hcond] at hx
            exact hds x hx
    · rw [sendGo, dif_neg hiN]
      refine ⟨by dsimp only; omega, ?_, by simp, ?_⟩
      · intro _ j hij hjN
        omega
      · intro hds x hx
        exact hds x (List.mem_reverse.mp hx)

/-- C5: a delivery with retry bound n performs at most n attempts, reports
failure only when every one of the n attempts failed (an error status or a
caught exception — no exception escapes the loop), and every sleep between
attempts uses the one configured delay. -/
theorem c5_delivery_retry_bound (att : Nat → AttemptOut) (n d : Nat) (bn : List Char) :
    (send_to_telegram att n d bn).attemptsMade ≤ n ∧
    ((send_to_telegram att n d bn).success = false →
      ∀ j, j < n → ¬ att j = AttemptOut.ok) ∧
    (∀ x ∈ (send_to_telegram att n d bn).delays, x = d) := by
  obtain ⟨ha, hb, hc, hd⟩ := sendGo_inv att n d bn n 0 [] (by omega) (by omega)
  exact ⟨ha, fun hs j hj => hb hs j (Nat.zero_le j) hj, hd (by simp)⟩

/-- C5 (witness): three always-failing attempts with bound 3 stay within
the bound. -/
theorem c5_delivery_retry_bound_witness :
    (send_to_telegram (fun _ => AttemptOut.httpErr) 3 5 "a.png".data).attemptsMade ≤ 3 :=
  (c5_delivery_retry_bound (fun _ => AttemptOut.httpErr) 3 5 "a.png".data).1

/-- C6: after a send_to_telegram call the artifact was deleted exactly
when the delivery succeeded and its basename carries a "_resized" or
"_compressed" marker: an unmarked (original) file is never deleted, and a
failed or exhausted delivery deletes nothing. -/
theorem c6_temp_file_deletion (att : Nat → AttemptOut) (n d : Nat) (bn : List Char) :
    (send_to_telegram att n d bn).deleted =
      ((send_to_telegram att n d bn).success &&
        (hasInfix "_resized".data bn || hasInfix "_compressed".data bn)) := by
  obtain ⟨ha, hb, hc, hd⟩ := sendGo_inv att n d bn n 0 [] (by omega) (by omega)
  simpa [delete_temp_file] using hc

end TGSender
